import Mathlib

set_option maxRecDepth 8000

/-!
Verification development for the two subsystems of this repository:

Part 1 - the text-grouping pipeline of bedrock-translate
  (fixed_main_process.py `main_process_converse`, steps 4 and 5, and
  utils.py `format_translation_document`), and

Part 2 - the prompt version-control workflow of bedrock-prompt-management
  (bedrock_prompt_management_version_control_advanced.py:
  `list_versions_with_tags`, `rollback_to_version`, `promote_version`).

External services (the Bedrock agent API, the SSM parameter store) are
modelled as oracles: each remote call is a record field holding either the
response or `none`/`false` for a raised ClientError.  The Python json
module, `str.strip`, `str.find`, slicing and `str.upper` are modelled
directly over character lists with Python semantics.
-/

/-! ### Python string primitives, modelled over character lists -/

/-- Whitespace as stripped by Python str.strip with no argument
(the six ASCII whitespace characters; further Unicode space characters
are outside the modelled domain). -/
def isPyWs (c : Char) : Bool :=
  c = ' ' || c = '\t' || c = '\n' || c = '\r' || c = '\x0b' || c = '\x0c'

/-- Python str.strip. -/
def pyStrip (s : String) : String :=
  String.mk (((s.data.dropWhile isPyWs).reverse.dropWhile isPyWs).reverse)

/-- Python str.upper (ASCII letters). -/
def pyUpper (s : String) : String :=
  String.mk (s.data.map Char.toUpper)

/-- Does the character list begin with the given needle? -/
def leadsWith : List Char → List Char → Bool
  | [], _ => true
  | _ :: _, [] => false
  | n :: ns, h :: hs => n == h && leadsWith ns hs

/-- First index at or after the running counter where the needle occurs. -/
def findIdx (needle : List Char) : List Char → Nat → Option Nat
  | [], i => if leadsWith needle [] then some i else none
  | h :: rest, i =>
    if leadsWith needle (h :: rest) then some i else findIdx needle rest (i + 1)

/-- Python str.find(needle, start): index of the first occurrence of the
needle at or after character position start, `none` for the -1 result. -/
def findFrom (hay needle : List Char) (start : Nat) : Option Nat :=
  (findIdx needle (hay.drop start) 0).map (fun k => k + start)

/-! ### The JSON data model and a model of Python json.loads -/

/-- A JSON value as decoded by the Python json module.  Numbers are
modelled as rationals covering the integer, fraction and exponent forms;
the nonstandard NaN and Infinity literals that the Python decoder also
accepts are outside the modelled domain. -/
inductive Json where
  | null
  | bool (b : Bool)
  | num (q : ℚ)
  | str (s : String)
  | arr (elems : List Json)
  | obj (fields : List (String × Json))

/-- JSON whitespace skipped between tokens (space, tab, newline, return). -/
def skipWs : List Char → List Char
  | [] => []
  | c :: cs =>
    if c = ' ' || c = '\t' || c = '\n' || c = '\r' then skipWs cs else c :: cs

/-- The left-brace character, written by code point. -/
def lbrace : Char := Char.ofNat 123

/-- The right-brace character, written by code point. -/
def rbrace : Char := Char.ofNat 125

/-- Value of a hexadecimal digit. -/
def hexVal (c : Char) : Option Nat :=
  if '0' ≤ c ∧ c ≤ '9' then some (c.toNat - 48)
  else if 'a' ≤ c ∧ c ≤ 'f' then some (c.toNat - 87)
  else if 'A' ≤ c ∧ c ≤ 'F' then some (c.toNat - 55)
  else none

/-- Single-character JSON string escapes. -/
def escChar (e : Char) : Option Char :=
  if e = '"' then some '"'
  else if e = '\\' then some '\\'
  else if e = '/' then some '/'
  else if e = 'n' then some '\n'
  else if e = 't' then some '\t'
  else if e = 'r' then some '\r'
  else if e = 'b' then some (Char.ofNat 8)
  else if e = 'f' then some (Char.ofNat 12)
  else none

/-- Body of a JSON string after the opening quote: returns the decoded
string and the remainder after the closing quote.  Raw control characters
are rejected as in the strict Python decoder; a \u escape yields the
character of its code point (surrogate-pair combining is outside the
modelled domain). -/
def parseStrAux : List Char → List Char → Option (String × List Char)
  | _, [] => none
  | acc, c :: rest =>
    if c = '"' then some (String.mk acc.reverse, rest)
    else if c = '\\' then
      match rest with
      | [] => none
      | e :: rest2 =>
        if e = 'u' then
          match rest2 with
          | a :: b :: c2 :: d :: rest3 =>
            match hexVal a, hexVal b, hexVal c2, hexVal d with
            | some x, some y, some z, some w =>
              parseStrAux (Char.ofNat (((x * 16 + y) * 16 + z) * 16 + w) :: acc) rest3
            | _, _, _, _ => none
          | _ => none
        else
          match escChar e with
          | none => none
          | some ch => parseStrAux (ch :: acc) rest2
    else if c.toNat < 32 then none
    else parseStrAux (c :: acc) rest

/-- Digit value, for number parsing. -/
def digitVal (c : Char) : Option Nat :=
  if '0' ≤ c ∧ c ≤ '9' then some (c.toNat - 48) else none

/-- Longest run of decimal digits at the head of the input. -/
def takeDigits : List Char → (List Nat × List Char)
  | [] => ([], [])
  | c :: rest =>
    match digitVal c with
    | none => ([], c :: rest)
    | some d =>
      let p := takeDigits rest
      (d :: p.1, p.2)

/-- The natural number denoted by a digit run. -/
def digitsToNat (ds : List Nat) : Nat := ds.foldl (fun a d => a * 10 + d) 0

/-- Numeric value from sign, integer digits, fraction digits and exponent. -/
def mkNum (neg : Bool) (ids fds : List Nat) (esign : Bool) (e : Nat) : Json :=
  let mantissa : Int := Int.ofNat (digitsToNat ids * 10 ^ fds.length + digitsToNat fds)
  let sm : Int := if neg then -mantissa else mantissa
  let exp : Int := (if esign then -(Int.ofNat e) else Int.ofNat e) - Int.ofNat fds.length
  Json.num ((sm : ℚ) * (10 : ℚ) ^ exp)

/-- Optional exponent part of a JSON number, then the finished value. -/
def parseExpPart (neg : Bool) (ids fds : List Nat) : List Char → Option (Json × List Char)
  | [] => some (mkNum neg ids fds false 0, [])
  | e :: rest =>
    if e = 'e' || e = 'E' then
      let sp : Bool × List Char :=
        match rest with
        | '+' :: r => (false, r)
        | '-' :: r => (true, r)
        | _ => (false, rest)
      let dp := takeDigits sp.2
      if dp.1 = [] then none
      else some (mkNum neg ids fds sp.1 (digitsToNat dp.1), dp.2)
    else some (mkNum neg ids fds false 0, e :: rest)

/-- A JSON number: optional minus, integer part with no leading zero,
optional fraction, optional exponent. -/
def parseNumber (cs : List Char) : Option (Json × List Char) :=
  let sp : Bool × List Char :=
    match cs with
    | '-' :: rest => (true, rest)
    | _ => (false, cs)
  let ip := takeDigits sp.2
  if ip.1 = [] then none
  else if 2 ≤ ip.1.length ∧ ip.1.head? = some 0 then none
  else
    match ip.2 with
    | '.' :: rest =>
      let fp := takeDigits rest
      if fp.1 = [] then none else parseExpPart sp.1 ip.1 fp.1 fp.2
    | other => parseExpPart sp.1 ip.1 [] other

mutual

/-- One JSON value, by recursive descent with a fuel bound on the number
of parsing steps. -/
def parseVal : Nat → List Char → Option (Json × List Char)
  | 0, _ => none
  | Nat.succ fuel, cs =>
    match skipWs cs with
    | [] => none
    | c :: rest =>
      if c = '"' then
        match parseStrAux [] rest with
        | none => none
        | some (s, rem) => some (Json.str s, rem)
      else if c = '[' then
        match skipWs rest with
        | ']' :: rem => some (Json.arr [], rem)
        | other =>
          match parseItems fuel other with
          | none => none
          | some (xs, rem) => some (Json.arr xs, rem)
      else if c = lbrace then
        match skipWs rest with
        | [] => none
        | d :: rem1 =>
          if d = rbrace then some (Json.obj [], rem1)
          else
            match parseMembers fuel (d :: rem1) with
            | none => none
            | some (fs, rem) => some (Json.obj fs, rem)
      else if leadsWith ("true".data) (c :: rest) then
        some (Json.bool true, (c :: rest).drop 4)
      else if leadsWith ("false".data) (c :: rest) then
        some (Json.bool false, (c :: rest).drop 5)
      else if leadsWith ("null".data) (c :: rest) then
        some (Json.null, (c :: rest).drop 4)
      else parseNumber (c :: rest)

/-- Comma-separated array elements up to the closing bracket. -/
def parseItems : Nat → List Char → Option (List Json × List Char)
  | 0, _ => none
  | Nat.succ fuel, cs =>
    match parseVal fuel cs with
    | none => none
    | some (v, rem) =>
      match skipWs rem with
      | [] => none
      | c :: rem2 =>
        if c = ',' then
          match parseItems fuel rem2 with
          | none => none
          | some (vs, rem3) => some (v :: vs, rem3)
        else if c = ']' then some ([v], rem2)
        else none

/-- Comma-separated object members up to the closing brace. -/
def parseMembers : Nat → List Char → Option (List (String × Json) × List Char)
  | 0, _ => none
  | Nat.succ fuel, cs =>
    match skipWs cs with
    | '"' :: rest =>
      match parseStrAux [] rest with
      | none => none
      | some (k, rem) =>
        match skipWs rem with
        | ':' :: rem2 =>
          match parseVal fuel rem2 with
          | none => none
          | some (v, rem3) =>
            match skipWs rem3 with
            | [] => none
            | c :: rem4 =>
              if c = ',' then
                match parseMembers fuel rem4 with
                | none => none
                | some (fs, rem5) => some ((k, v) :: fs, rem5)
              else if c = rbrace then some ([(k, v)], rem4)
              else none
        | _ => none
    | _ => none

end

/-- Python json.loads on a candidate string: one JSON value, with only
whitespace allowed after it.  The fuel bound of twice the length plus two
exceeds the number of parsing steps any input can take, since every two
steps consume at least one character. -/
def json_loads (s : String) : Option Json :=
  let cs := s.data
  match parseVal (2 * cs.length + 2) cs with
  | none => none
  | some (v, rem) => if skipWs rem = [] then some v else none

/-! ### Model-output extraction (fixed_main_process.py, step 4) -/

/-- Python repr of a decoded JSON value, used by str() on containers.
Quote escaping inside repr of strings and the numeric display format are
outside the modelled domain (no claim observes them). -/
def pyQuote : String := String.mk [Char.ofNat 39]

mutual

def pyRepr : Json → String
  | Json.null => "None"
  | Json.bool true => "True"
  | Json.bool false => "False"
  | Json.num q => toString q
  | Json.str s => pyQuote ++ s ++ pyQuote
  | Json.arr xs => "[" ++ pyReprList xs ++ "]"
  | Json.obj fs => "\x7b" ++ pyReprFields fs ++ "\x7d"

def pyReprList : List Json → String
  | [] => ""
  | [x] => pyRepr x
  | x :: y :: rest => pyRepr x ++ ", " ++ pyReprList (y :: rest)

def pyReprFields : List (String × Json) → String
  | [] => ""
  | [(k, v)] => pyQuote ++ k ++ pyQuote ++ ": " ++ pyRepr v
  | (k, v) :: m :: rest => pyQuote ++ k ++ pyQuote ++ ": " ++ pyRepr v ++ ", " ++ pyReprFields (m :: rest)

end

/-- Python str() of a decoded JSON value: the string itself for strings,
repr for everything else. -/
def pyStr : Json → String
  | Json.str s => s
  | v => pyRepr v

/-- Python dict access on a decoded JSON object: the value of the last
binding of the key, as later duplicate keys overwrite earlier ones. -/
def dictGet (fields : List (String × Json)) (k : String) : Option Json :=
  (fields.reverse).lookup k

/-- The JSON candidate text cut out of the model reply
(fixed_main_process.py lines 35-53): text between a leading three-backtick
json marker and the next fence, else between a generic fence pair, else
the whole stripped reply; a missing closing fence takes everything to the
end of the reply.  Offsets 7 and 3 are the marker lengths. -/
def fence_candidate (reply : String) : String :=
  let cs := reply.data
  match findFrom cs ("```json".data) 0 with
  | some k =>
    let s := k + 7
    match findFrom cs ("```".data) s with
    | some e => pyStrip (String.mk ((cs.take e).drop s))
    | none => pyStrip (String.mk (cs.drop s))
  | none =>
    match findFrom cs ("```".data) 0 with
    | some k =>
      let s := k + 3
      match findFrom cs ("```".data) s with
      | some e => pyStrip (String.mk ((cs.take e).drop s))
      | none => pyStrip (String.mk (cs.drop s))
    | none => pyStrip reply

/-- The grouped_texts value produced by the extraction step: either a
Python list of dicts with category and texts keys, or the raw value of
the groups key of a decoded object, taken as-is. -/
inductive Grouped where
  | lst (groups : List (String × Json))
  | rawGroups (j : Json)

/-- Group labels from enumerate(parsed_result): Group 1, Group 2, ... -/
def enumGroupsAux : Nat → List Json → List (String × Json)
  | _, [] => []
  | i, g :: rest => ("Group " ++ toString (i + 1), g) :: enumGroupsAux (i + 1) rest

/-- The extraction step of main_process_converse (lines 28-73): an empty
or whitespace-only reply yields the single General placeholder group; else
the fenced candidate is decoded, a decoded list is enumerated into groups,
a decoded dict yields its groups value or a General group holding its
str(), and a decode failure yields a General group holding the raw reply. -/
def extract_grouped_texts (reply : String) : Grouped :=
  if reply = "" ∨ pyStrip reply = "" then
    Grouped.lst [("General", Json.arr [Json.str "응답 없음"])]
  else
    let json_text := fence_candidate reply
    match json_loads json_text with
    | none => Grouped.lst [("General", Json.arr [Json.str reply])]
    | some (Json.arr groups) => Grouped.lst (enumGroupsAux 0 groups)
    | some (Json.obj fields) =>
      match dictGet fields "groups" with
      | some v => Grouped.rawGroups v
      | none => Grouped.lst [("General", Json.arr [Json.str (pyStr (Json.obj fields))])]
    | some v => Grouped.lst [("General", Json.arr [Json.str (pyStr v)])]

/-! ### Spreadsheet export (utils.py, format_translation_document) -/

/-- One input group for the spreadsheet export: a dict with the optional
keys the source reads (category, texts, content, description, priority,
location), or a plain string.  Other Python value shapes, whose handling
falls to the str() branch of the source, are outside the modelled domain. -/
inductive GroupInput where
  | dict (category : Option String) (texts : Option (List String))
         (content : Option String) (description : Option String)
         (priority : Option String) (location : Option String)
  | str (s : String)
deriving DecidableEq

/-- One row of the Translation sheet.  The Original and Translated column
headers carry the source and target language names; the header text is
presentation and not part of the row model. -/
structure Row where
  id : String
  category : String
  priority : String
  location : String
  description : String
  original_text : String
  translated_text : String
  notes : String
  status : String
deriving DecidableEq

/-- Python format spec 03d used for the row identifiers. -/
def pad3 (i : Nat) : String :=
  if i < 10 then "00" ++ toString i
  else if i < 100 then "0" ++ toString i
  else toString i

/-- The combined text of a group (utils.py lines 126-154): a bracketed
category line when a category key is present, then the newline-joined
texts when a texts key is present, else the content value. -/
def group_text : GroupInput → String
  | GroupInput.dict category texts content _ _ _ =>
    (match category with
     | some c => "[" ++ c ++ "]\n"
     | none => "") ++
    (match texts with
     | some ts => String.intercalate "\n" ts
     | none =>
       match content with
       | some c => c
       | none => "")
  | GroupInput.str s => s

/-- The row built from the group at 1-based position i, or none when the
stripped combined text is empty and the group is excluded
(utils.py lines 156-168). -/
def rowFor (i : Nat) (g : GroupInput) : Option Row :=
  let gt := group_text g
  let category :=
    match g with
    | GroupInput.dict c _ _ _ _ _ => c.getD ("Group_" ++ toString i)
    | GroupInput.str _ => "Group_" ++ toString i
  let description :=
    match g with
    | GroupInput.dict _ _ _ d _ _ => d.getD ""
    | GroupInput.str _ => ""
  let priority :=
    match g with
    | GroupInput.dict _ _ _ _ p _ => p.getD "medium"
    | GroupInput.str _ => "medium"
  let location :=
    match g with
    | GroupInput.dict _ _ _ _ _ l => l.getD ""
    | GroupInput.str _ => ""
  if pyStrip gt = "" then none
  else some
    { id := "T" ++ pad3 i
      category := category
      priority := priority
      location := location
      description := description
      original_text := pyStrip gt
      translated_text := ""
      notes := ""
      status := "Pending" }

/-- The enumerate(grouped_texts, 1) loop: the counter advances for every
group, rows are kept only for groups with nonempty stripped text. -/
def formatRows : Nat → List GroupInput → List Row
  | _, [] => []
  | i, g :: rest =>
    match rowFor i g with
    | none => formatRows (i + 1) rest
    | some r => r :: formatRows (i + 1) rest

/-- utils.py format_translation_document: the list of Translation-sheet
rows built from the groups (the DataFrame and xlsx styling around it are
presentation and out of scope). -/
def format_translation_document (grouped_texts : List GroupInput) : List Row :=
  formatRows 1 grouped_texts

/-! ### Prompt version control (bedrock_prompt_management_version_control_advanced.py)

A prompt as returned by get_prompt.  The source touches only the arn,
name and description fields and the text field of each variant; a variant
is therefore modelled by its template text, the untouched remaining
variant fields being out of scope. -/

structure Prompt where
  arn : String
  name : String
  description : String
  variants : List String
deriving DecidableEq

/-- The first variant text, accessed in the source at index 0; an empty
variant list makes the access raise IndexError. -/
def Prompt.firstText (p : Prompt) : Option String := p.variants.head?

/-- One record of the list built by list_versions_with_tags. -/
structure VersionInfo where
  version : String
  arn : String
  name : String
  content : String
  tags : List (String × String)
deriving DecidableEq

/-- The displayed content of a version summary: the first 100 characters
followed by the ellipsis marker (lines 173 and 200 of the source). -/
def summarize (s : String) : String := String.mk (s.data.take 100) ++ "..."

/-- Oracle for the backing store as seen by list_versions_with_tags:
the draft fetch, the fetch of each numbered version and the tag lookup of
each numbered version; `none` stands for a raised ClientError. -/
structure PromptStore where
  draft : Option Prompt
  version : Nat → Option Prompt
  tags : Nat → Option (List (String × String))

/-- The tag set recorded for a numbered version: the looked-up tags, or
the empty tag set when the lookup raised (lines 188-194, the bare except). -/
def tagsFor (s : PromptStore) (n : Nat) : List (String × String) :=
  match s.tags n with
  | none => []
  | some ts => ts

/-- The summary record of numbered version n (lines 196-202). -/
def mkVersionInfo (s : PromptStore) (base_arn : String) (n : Nat) (p : Prompt)
    (t : String) : VersionInfo :=
  { version := toString n
    arn := base_arn ++ ":" ++ toString n
    name := p.name
    content := summarize t
    tags := tagsFor s n }

/-- The summary record of the draft (lines 169-175). -/
def draftInfo (d : Prompt) (td : String) : VersionInfo :=
  { version := "DRAFT", arn := d.arn, name := d.name,
    content := summarize td, tags := [] }

/-- The probe ceiling max_attempts of the version loop (line 179). -/
def max_attempts : Nat := 20

/-- The integers probed by the while loop: 1 up to max_attempts. -/
def probeRange : List Nat := (List.range max_attempts).map (fun i => i + 1)

/-- The while loop of lines 181-213 over the listed probe numbers: a
ClientError from the version fetch skips to the next number in either
branch of the handler; a present version with no variants raises
IndexError past the ClientError handlers, making the whole call raise
(`none`); a present well-formed version contributes its record. -/
def probeList (s : PromptStore) (base_arn : String) : List Nat → Option (List VersionInfo)
  | [] => some []
  | n :: rest =>
    match s.version n with
    | none => probeList s base_arn rest
    | some p =>
      match p.firstText with
      | none => none
      | some t =>
        match probeList s base_arn rest with
        | none => none
        | some l => some (mkVersionInfo s base_arn n p t :: l)

/-- list_versions_with_tags (lines 151-219): a ClientError on the draft
fetch is caught at the outer boundary and yields the empty list; an
IndexError on the draft content raises (`none`); otherwise the draft
record followed by the records of the probed numbered versions. -/
def list_versions_with_tags (s : PromptStore) : Option (List VersionInfo) :=
  match s.draft with
  | none => some []
  | some d =>
    match d.firstText with
    | none => none
    | some td =>
      (probeList s d.arn probeRange).map (fun numbered => draftInfo d td :: numbered)

/-- The per-environment default tag sets of ENVIRONMENT_CONFIG, with the
empty set for an unknown environment name (the .get default). -/
def default_tags (env : String) : List (String × String) :=
  if env = "dev" then [("Environment", "DEV"), ("Status", "TESTING")]
  else if env = "prod" then [("Environment", "PROD"), ("Status", "ACTIVE")]
  else []

/-- Python dict lookup on a tag mapping built by listing bindings left to
right, where a later binding of a key overwrites an earlier one. -/
def tagValue (tags : List (String × String)) (k : String) : Option String :=
  (tags.reverse).lookup k

/-- The rollback tag set (lines 270-278), keyed by the target version,
the rollback date, the reason and the initiating environment. -/
def rollback_tags (target_version rollback_date rollback_reason environment : String) :
    List (String × String) :=
  [("Environment", "ROLLBACK"),
   ("RollbackFrom", "DRAFT"),
   ("RollbackTo", target_version),
   ("RollbackDate", rollback_date),
   ("RollbackReason", rollback_reason),
   ("Status", "ROLLBACK_COMPLETE"),
   ("SourceEnvironment", pyUpper environment)]

/-- Oracle for the remote calls made by rollback_to_version, in call
order; `none` or `false` stands for a raised ClientError. -/
structure RollbackCalls where
  currentPrompt : Option Prompt
  targetPrompt : Option Prompt
  updateOk : Bool
  createdArn : Option String
  tagOk : Bool

/-- Outcome of rollback_to_version: the returned boolean, together with
the tag set successfully attached to the new rollback version when the
run reached and completed the tag call. -/
structure RollbackReturn where
  success : Bool
  taggedWith : Option (List (String × String))
deriving DecidableEq

/-- rollback_to_version (lines 221-293).  ClientError anywhere in the
sequence is caught and yields False; an IndexError on the target content
(a prompt with no variants) escapes the ClientError handler and raises
(`none`).  The date argument stands for datetime.now() at the run. -/
def rollback_to_version (c : RollbackCalls)
    (environment target_version rollback_reason rollback_date : String) :
    Option RollbackReturn :=
  match c.currentPrompt with
  | none => some { success := false, taggedWith := none }
  | some cp =>
    match (if target_version = "DRAFT" then some cp else c.targetPrompt) with
    | none => some { success := false, taggedWith := none }
    | some tp =>
      match tp.firstText with
      | none => none
      | some _target_content =>
        if c.updateOk then
          match c.createdArn with
          | none => some { success := false, taggedWith := none }
          | some _arn =>
            let tags := rollback_tags target_version rollback_date rollback_reason environment
            if c.tagOk then some { success := true, taggedWith := some tags }
            else some { success := false, taggedWith := none }
        else some { success := false, taggedWith := none }

/-- The promotion tag set (lines 366-375): the destination environment
defaults merged with the promotion provenance entries, later bindings
overwriting earlier ones under `tagValue`. -/
def promotion_tags (to_env version_tag from_env promoted_date promoted_time
    source_prompt_id : String) : List (String × String) :=
  default_tags to_env ++
  [("Version", version_tag),
   ("PromotedFrom", pyUpper from_env),
   ("PromotedDate", promoted_date),
   ("PromotedTime", promoted_time),
   ("SourcePromptId", source_prompt_id),
   ("PromotionType", "ENVIRONMENT_PROMOTION")]

/-- Oracle for the remote calls made by promote_version, in call order:
the source draft fetch, the parameter-store lookup of the destination
prompt id, the destination draft fetch, the destination draft update, the
version creation, the tag attach, and the verification re-fetch. -/
structure PromoteCalls where
  sourcePrompt : Option Prompt
  targetParam : Option String
  targetPrompt : Option Prompt
  updateOk : Bool
  createdArn : Option String
  tagOk : Bool
  verifyPrompt : Option Prompt

/-- Outcome of promote_version: the returned boolean, with the tag set
successfully attached to the new destination version when the run reached
and completed the tag call. -/
structure PromoteReturn where
  success : Bool
  taggedWith : Option (List (String × String))
deriving DecidableEq

/-- promote_version (lines 295-403).  The outer handler catches every
exception and returns False, so no call failure escapes.  After a
successful tag attach, the verification re-fetch compares the destination
draft content with the source content: lines 392-397 return True in both
the matching and the mismatching branch, the mismatch being only logged.
The date and time arguments stand for datetime.now() at the run. -/
def promote_version (c : PromoteCalls)
    (from_env to_env version_tag prompt_identifier promoted_date promoted_time : String) :
    PromoteReturn :=
  match c.sourcePrompt with
  | none => { success := false, taggedWith := none }
  | some sp =>
    match sp.firstText with
    | none => { success := false, taggedWith := none }
    | some source_content =>
      match c.targetParam with
      | none => { success := false, taggedWith := none }
      | some _target_prompt_id =>
        match c.targetPrompt with
        | none => { success := false, taggedWith := none }
        | some tp =>
          match tp.firstText with
          | none => { success := false, taggedWith := none }
          | some _target_content =>
            if c.updateOk then
              match c.createdArn with
              | none => { success := false, taggedWith := none }
              | some _arn =>
                let tags := promotion_tags to_env version_tag from_env
                  promoted_date promoted_time prompt_identifier
                if c.tagOk then
                  match c.verifyPrompt with
                  | none => { success := false, taggedWith := some tags }
                  | some vp =>
                    match vp.firstText with
                    | none => { success := false, taggedWith := some tags }
                    | some verification_content =>
                      if verification_content = source_content then
                        { success := true, taggedWith := some tags }
                      else
                        { success := true, taggedWith := some tags }
                else { success := false, taggedWith := none }
            else { success := false, taggedWith := none }

/-! ### Concrete fixtures for counterexamples and witnesses -/

/-- A well-formed draft prompt. -/
def draftPrompt : Prompt :=
  { arn := "arn:base", name := "p", description := "", variants := ["hello world"] }

/-- A well-formed numbered-version prompt with a short text. -/
def shortPrompt : Prompt :=
  { arn := "arn:base:1", name := "p", description := "", variants := ["short"] }

/-- A store where version 1 is absent but version 2 exists. -/
def gapStore : PromptStore :=
  { draft := some draftPrompt
    version := fun n => if n = 2 then some shortPrompt else none
    tags := fun _ => some [] }

/-- A store whose only numbered version holds a text of 5 characters. -/
def shortStore : PromptStore :=
  { draft := some draftPrompt
    version := fun n => if n = 1 then some shortPrompt else none
    tags := fun _ => some [] }

/-- A store with versions 1 to 3, where the tag lookup of version 2
raises. -/
def tagFailStore : PromptStore :=
  { draft := some draftPrompt
    version := fun n => if 1 ≤ n ∧ n ≤ 3 then some shortPrompt else none
    tags := fun n => if n = 2 then none else some [("Environment", "DEV")] }

/-- A rollback run in which every remote call succeeds. -/
def okRollbackCalls : RollbackCalls :=
  { currentPrompt := some draftPrompt
    targetPrompt := some shortPrompt
    updateOk := true
    createdArn := some "arn:base:4"
    tagOk := true }

/-- A promotion run in which every remote call succeeds but the
verification re-fetch returns a draft whose content differs from the
source content. -/
def mismatchPromoteCalls : PromoteCalls :=
  { sourcePrompt := some { arn := "arn:src", name := "s", description := "",
                           variants := ["SELECT 1"] }
    targetParam := some "PROMPT2"
    targetPrompt := some { arn := "arn:dst", name := "d", description := "",
                           variants := ["old"] }
    updateOk := true
    createdArn := some "arn:dst:7"
    tagOk := true
    verifyPrompt := some { arn := "arn:dst", name := "d", description := "",
                           variants := ["SOMETHING ELSE"] } }

/-! ### Helper lemmas -/

theorem probeList_cons_none {s : PromptStore} {a : String} {n : Nat} {rest : List Nat}
    (hp : s.version n = none) :
    probeList s a (n :: rest) = probeList s a rest := by
  rw [probeList, hp]

theorem probeList_cons_some {s : PromptStore} {a : String} {n : Nat} {rest : List Nat}
    {p : Prompt} {t : String} (hp : s.version n = some p) (ht : p.firstText = some t) :
    probeList s a (n :: rest) =
      (probeList s a rest).map (fun l => mkVersionInfo s a n p t :: l) := by
  simp only [probeList, hp, ht]
  cases probeList s a rest <;> rfl

theorem probeList_all_absent {s : PromptStore} {a : String} {ks : List Nat}
    (h : ∀ k ∈ ks, s.version k = none) : probeList s a ks = some [] := by
  induction ks with
  | nil => rfl
  | cons k rest ih =>
    rw [probeList_cons_none (h k (List.mem_cons_self _ _))]
    exact ih (fun k2 hk2 => h k2 (List.mem_cons_of_mem _ hk2))

theorem probeList_mem {s : PromptStore} {a : String} {ks : List Nat} {n : Nat}
    {p : Prompt} {t : String} {l : List VersionInfo}
    (hmem : n ∈ ks) (hp : s.version n = some p) (ht : p.firstText = some t)
    (hres : probeList s a ks = some l) :
    mkVersionInfo s a n p t ∈ l := by
  induction ks generalizing l with
  | nil => cases hmem
  | cons k rest ih =>
    rcases List.mem_cons.mp hmem with hnk | hmem2
    · subst hnk
      rw [probeList_cons_some hp ht] at hres
      cases hrest : probeList s a rest with
      | none => rw [hrest] at hres; cases hres
      | some l2 =>
        rw [hrest] at hres
        injection hres with h
        subst h
        exact List.mem_cons_self _ _
    · cases hk : s.version k with
      | none =>
        rw [probeList_cons_none hk] at hres
        exact ih hmem2 hres
      | some pk =>
        cases htk : pk.firstText with
        | none =>
          simp only [probeList, hk, htk] at hres
          exact Option.noConfusion hres
        | some tk =>
          rw [probeList_cons_some hk htk] at hres
          cases hrest : probeList s a rest with
          | none => rw [hrest] at hres; cases hres
          | some l2 =>
            rw [hrest] at hres
            injection hres with h
            subst h
            exact List.mem_cons_of_mem _ (ih hmem2 hrest)

theorem probeList_isSome {s : PromptStore} {a : String} {ks : List Nat}
    (hwf : ∀ k ∈ ks, ∀ p, s.version k = some p → p.firstText.isSome) :
    ∃ l, probeList s a ks = some l := by
  induction ks with
  | nil => exact ⟨[], rfl⟩
  | cons k rest ih =>
    obtain ⟨l, hl⟩ := ih (fun k2 hk2 p hp => hwf k2 (List.mem_cons_of_mem _ hk2) p hp)
    cases hk : s.version k with
    | none => exact ⟨l, (probeList_cons_none hk).trans hl⟩
    | some p =>
      obtain ⟨t, ht⟩ := Option.isSome_iff_exists.mp (hwf k (List.mem_cons_self _ _) p hk)
      refine ⟨mkVersionInfo s a k p t :: l, ?_⟩
      rw [probeList_cons_some hk ht, hl]
      rfl

theorem mem_probeRange {n : Nat} : n ∈ probeRange ↔ 1 ≤ n ∧ n ≤ 20 := by
  constructor
  · intro h
    rw [probeRange, max_attempts] at h
    obtain ⟨i, hi, hin⟩ := List.mem_map.mp h
    have := List.mem_range.mp hi
    omega
  · intro h
    rw [probeRange, max_attempts]
    exact List.mem_map.mpr ⟨n - 1, List.mem_range.mpr (by omega), by omega⟩

theorem probeRange_eq :
    probeRange = [1, 2, 3, 4, 5, 6, 7, 8, 9, 10, 11, 12, 13, 14, 15, 16, 17, 18, 19, 20] := by
  decide

theorem lvwt_eq {s : PromptStore} {d : Prompt} {td : String}
    (hd : s.draft = some d) (htd : d.firstText = some td) :
    list_versions_with_tags s =
      (probeList s d.arn probeRange).map (fun numbered => draftInfo d td :: numbered) := by
  simp only [list_versions_with_tags, hd, htd]

theorem enumGroupsAux_length (i : Nat) (gs : List Json) :
    (enumGroupsAux i gs).length = gs.length := by
  induction gs generalizing i with
  | nil => rfl
  | cons g rest ih => simp only [enumGroupsAux, List.length_cons, ih]

theorem rowFor_nonblank (i : Nat) (g : GroupInput)
    (h : ¬ pyStrip (group_text g) = "") :
    ∃ r0, rowFor i g = some r0 ∧ r0.translated_text = "" ∧ r0.notes = "" ∧
      r0.status = "Pending" ∧ r0.original_text = pyStrip (group_text g) := by
  simp only [rowFor, if_neg h]
  exact ⟨_, rfl, rfl, rfl, rfl, rfl⟩

theorem rowFor_blank (i : Nat) (g : GroupInput)
    (h : pyStrip (group_text g) = "") : rowFor i g = none := by
  simp only [rowFor, if_pos h]

theorem formatRows_spec (i : Nat) (gs : List GroupInput) :
    (formatRows i gs).length =
      (gs.filter (fun g => pyStrip (group_text g) != "")).length ∧
    ∀ r ∈ formatRows i gs,
      r.translated_text = "" ∧ r.notes = "" ∧ r.status = "Pending" ∧
      ∃ g ∈ gs, pyStrip (group_text g) ≠ "" ∧ r.original_text = pyStrip (group_text g) := by
  induction gs generalizing i with
  | nil => exact ⟨rfl, fun r hr => absurd hr (List.not_mem_nil r)⟩
  | cons g rest ih =>
    obtain ⟨ihlen, ihmem⟩ := ih (i + 1)
    by_cases hblank : pyStrip (group_text g) = ""
    · have hfilter : (pyStrip (group_text g) != "") = false := by
        simp [hblank]
      constructor
      · simp only [formatRows, rowFor_blank i g hblank, List.filter_cons, hfilter,
          Bool.false_eq_true, if_false, ihlen]
      · intro r hr
        rw [formatRows, rowFor_blank i g hblank] at hr
        obtain ⟨h1, h2, h3, g2, hg2, hne2, heq2⟩ := ihmem r hr
        exact ⟨h1, h2, h3, g2, List.mem_cons_of_mem _ hg2, hne2, heq2⟩
    · obtain ⟨r0, hr0, hrt, hrn, hrs, hro⟩ := rowFor_nonblank i g hblank
      have hfilter : (pyStrip (group_text g) != "") = true := by
        simp [hblank]
      constructor
      · simp only [formatRows, hr0, List.filter_cons, hfilter, if_true,
          List.length_cons, ihlen]
      · intro r hr
        rw [formatRows, hr0] at hr
        rcases List.mem_cons.mp hr with hreq | hr2
        · subst hreq
          exact ⟨hrt, hrn, hrs, g, List.mem_cons_self _ _, hblank, hro⟩
        · obtain ⟨h1, h2, h3, g2, hg2, hne2, heq2⟩ := ihmem r hr2
          exact ⟨h1, h2, h3, g2, List.mem_cons_of_mem _ hg2, hne2, heq2⟩

/-! ### Claim theorems -/

/-- C1: for every promotion invocation in which steps 1-6 succeed, the
Promotion Operation returns overall success even when the verification
read-back finds the destination draft content unequal to the source
content; the mismatch never changes the boolean result. -/
theorem C1_promotion_succeeds_despite_verification_mismatch
    (c : PromoteCalls)
    (from_env to_env version_tag prompt_identifier promoted_date promoted_time : String)
    (sp tp vp : Prompt)
    (source_content target_content verification_content tid arn : String)
    (h1 : c.sourcePrompt = some sp) (h2 : sp.firstText = some source_content)
    (h3 : c.targetParam = some tid)
    (h4 : c.targetPrompt = some tp) (h5 : tp.firstText = some target_content)
    (h6 : c.updateOk = true)
    (h7 : c.createdArn = some arn)
    (h8 : c.tagOk = true)
    (h9 : c.verifyPrompt = some vp) (h10 : vp.firstText = some verification_content)
    (hmismatch : verification_content ≠ source_content) :
    (promote_version c from_env to_env version_tag prompt_identifier
      promoted_date promoted_time).success = true := by
  simp only [promote_version, h1, h2, h3, h4, h5, h6, h7, h8, h9, h10, if_true]
  split <;> rfl

/-- C1 witness: a concrete fully successful promotion run whose
verification read-back disagrees with the source content still returns
success. -/
theorem C1_witness :
    (promote_version mismatchPromoteCalls "dev" "prod" "v1.3.0" "PROMPT1"
      "2026-10-12" "12:00:00").success = true :=
  C1_promotion_succeeds_despite_verification_mismatch mismatchPromoteCalls
    "dev" "prod" "v1.3.0" "PROMPT1" "2026-10-12" "12:00:00"
    { arn := "arn:src", name := "s", description := "", variants := ["SELECT 1"] }
    { arn := "arn:dst", name := "d", description := "", variants := ["old"] }
    { arn := "arn:dst", name := "d", description := "", variants := ["SOMETHING ELSE"] }
    "SELECT 1" "old" "SOMETHING ELSE" "PROMPT2" "arn:dst:7"
    rfl rfl rfl rfl rfl rfl rfl rfl rfl rfl (by decide)

/-- C2 counterexample: in a store where version 1 is absent but version 2
exists, the enumerator still reports version 2, so discovery does not
stop at the first absent version as the claim states. -/
theorem C2_counterexample :
    gapStore.version 1 = none ∧
    (list_versions_with_tags gapStore).map (fun l => l.map VersionInfo.version) =
      some ["DRAFT", "2"] := by
  exact ⟨rfl, by decide⟩

/-- C2 amended: the version loop probes every integer from 1 to the probe
ceiling 20 and merely skips an integer the store signals as absent, so an
existing well-formed version j within the ceiling appears in the result
even when some earlier probe i is absent. -/
theorem C2_amended_gap_does_not_stop_discovery
    (s : PromptStore) (d : Prompt) (td : String) (i j : Nat) (p : Prompt) (t : String)
    (l : List VersionInfo)
    (hd : s.draft = some d) (htd : d.firstText = some td)
    (hi1 : 1 ≤ i) (hij : i < j) (hj20 : j ≤ 20)
    (hi : s.version i = none)
    (hj : s.version j = some p) (ht : p.firstText = some t)
    (hl : list_versions_with_tags s = some l) :
    ∃ r ∈ l, r.version = toString j := by
  rw [lvwt_eq hd htd] at hl
  cases hpl : probeList s d.arn probeRange with
  | none => rw [hpl] at hl; exact Option.noConfusion hl
  | some numbered =>
    rw [hpl] at hl
    injection hl with hl
    subst hl
    have hmem : j ∈ probeRange := mem_probeRange.mpr ⟨by omega, hj20⟩
    exact ⟨mkVersionInfo s d.arn j p t,
      List.mem_cons_of_mem _ (probeList_mem hmem hj ht hpl), rfl⟩

/-- C2 amended witness: in the concrete gap store, version 2 appears in
the enumeration although version 1 is absent. -/
theorem C2_amended_witness :
    ∃ r ∈ [draftInfo draftPrompt "hello world",
           mkVersionInfo gapStore "arn:base" 2 shortPrompt "short"],
      r.version = toString 2 :=
  C2_amended_gap_does_not_stop_discovery gapStore draftPrompt "hello world"
    1 2 shortPrompt "short"
    [draftInfo draftPrompt "hello world",
     mkVersionInfo gapStore "arn:base" 2 shortPrompt "short"]
    rfl rfl (by decide) (by decide) (by decide) rfl rfl rfl (by decide)

/-- C3 counterexample: a stored text of 5 characters, well under 100, is
still reported with the ellipsis marker appended, so the marker is not
equivalent to the text being longer than 100 characters and the short
text is not reported unmodified. -/
theorem C3_counterexample :
    ("short".length ≤ 100) ∧
    list_versions_with_tags shortStore =
      some [draftInfo draftPrompt "hello world",
            { version := "1", arn := "arn:base:1", name := "p",
              content := "short...", tags := [] }] ∧
    ("short..." : String) ≠ "short" := by
  exact ⟨by decide, by decide, by decide⟩

/-- C3 amended: every summary record carries as content the first 100
characters of the stored text with the ellipsis marker appended,
unconditionally, for the draft record and for every numbered version
record alike. -/
theorem C3_amended_content_always_marked
    (s : PromptStore) (d : Prompt) (td : String) (n : Nat) (p : Prompt) (t : String)
    (l : List VersionInfo)
    (hd : s.draft = some d) (htd : d.firstText = some td)
    (hn1 : 1 ≤ n) (hn2 : n ≤ 20)
    (hp : s.version n = some p) (ht : p.firstText = some t)
    (hl : list_versions_with_tags s = some l) :
    (∃ r ∈ l, r.version = toString n ∧
      r.content = String.mk (t.data.take 100) ++ "...") ∧
    l.head? = some (draftInfo d td) ∧
    (draftInfo d td).content = String.mk (td.data.take 100) ++ "..." := by
  rw [lvwt_eq hd htd] at hl
  cases hpl : probeList s d.arn probeRange with
  | none => rw [hpl] at hl; exact Option.noConfusion hl
  | some numbered =>
    rw [hpl] at hl
    injection hl with hl
    subst hl
    have hmem : n ∈ probeRange := mem_probeRange.mpr ⟨hn1, hn2⟩
    exact ⟨⟨mkVersionInfo s d.arn n p t,
      List.mem_cons_of_mem _ (probeList_mem hmem hp ht hpl), rfl, rfl⟩, rfl, rfl⟩

/-- C3 amended witness: the concrete short store evaluated at version 1. -/
theorem C3_amended_witness :
    (∃ r ∈ [draftInfo draftPrompt "hello world",
            mkVersionInfo shortStore "arn:base" 1 shortPrompt "short"],
      r.version = toString 1 ∧
      r.content = String.mk (("short" : String).data.take 100) ++ "...") ∧
    [draftInfo draftPrompt "hello world",
     mkVersionInfo shortStore "arn:base" 1 shortPrompt "short"].head? =
      some (draftInfo draftPrompt "hello world") ∧
    (draftInfo draftPrompt "hello world").content =
      String.mk (("hello world" : String).data.take 100) ++ "..." :=
  C3_amended_content_always_marked shortStore draftPrompt "hello world"
    1 shortPrompt "short"
    [draftInfo draftPrompt "hello world",
     mkVersionInfo shortStore "arn:base" 1 shortPrompt "short"]
    rfl rfl (by decide) (by decide) rfl rfl (by decide)

/-- C4: whichever environment initiates a rollback, the tag set that gets
attached to the newly created rollback version maps Environment to the
sentinel ROLLBACK, records the source as the draft, the target version,
the rollback date and the reason. -/
theorem C4_rollback_tag_set
    (c : RollbackCalls)
    (environment target_version rollback_reason rollback_date : String)
    (b : Bool) (ts : List (String × String))
    (h : rollback_to_version c environment target_version rollback_reason rollback_date =
      some { success := b, taggedWith := some ts }) :
    tagValue ts "Environment" = some "ROLLBACK" ∧
    tagValue ts "RollbackFrom" = some "DRAFT" ∧
    tagValue ts "RollbackTo" = some target_version ∧
    tagValue ts "RollbackDate" = some rollback_date ∧
    tagValue ts "RollbackReason" = some rollback_reason := by
  have hts : ts = rollback_tags target_version rollback_date rollback_reason environment := by
    simp only [rollback_to_version] at h
    repeat' split at h
    all_goals simp_all
  subst hts
  exact ⟨rfl, rfl, rfl, rfl, rfl⟩

/-- C4 witness: a concrete successful rollback initiated from the dev
environment attaches the ROLLBACK tag set. -/
theorem C4_witness :
    tagValue (rollback_tags "3" "2026-10-12" "bad deploy" "dev") "Environment" =
      some "ROLLBACK" ∧
    tagValue (rollback_tags "3" "2026-10-12" "bad deploy" "dev") "RollbackFrom" =
      some "DRAFT" ∧
    tagValue (rollback_tags "3" "2026-10-12" "bad deploy" "dev") "RollbackTo" =
      some "3" ∧
    tagValue (rollback_tags "3" "2026-10-12" "bad deploy" "dev") "RollbackDate" =
      some "2026-10-12" ∧
    tagValue (rollback_tags "3" "2026-10-12" "bad deploy" "dev") "RollbackReason" =
      some "bad deploy" :=
  C4_rollback_tag_set okRollbackCalls "dev" "3" "bad deploy" "2026-10-12" true
    (rollback_tags "3" "2026-10-12" "bad deploy" "dev") rfl

/-- C5: a resource with exactly the numbered versions 1, 2 and 3 plus the
draft enumerates to exactly 4 summary records, the draft record first,
with version label DRAFT. -/
theorem C5_three_versions_yield_four_records
    (s : PromptStore) (d : Prompt) (td : String)
    (p1 p2 p3 : Prompt) (t1 t2 t3 : String)
    (hd : s.draft = some d) (htd : d.firstText = some td)
    (h1 : s.version 1 = some p1) (ht1 : p1.firstText = some t1)
    (h2 : s.version 2 = some p2) (ht2 : p2.firstText = some t2)
    (h3 : s.version 3 = some p3) (ht3 : p3.firstText = some t3)
    (habsent : ∀ n, 4 ≤ n → s.version n = none) :
    ∃ l, list_versions_with_tags s = some l ∧ l.length = 4 ∧
      l.head?.map VersionInfo.version = some "DRAFT" := by
  have htail : probeList s d.arn
      [4, 5, 6, 7, 8, 9, 10, 11, 12, 13, 14, 15, 16, 17, 18, 19, 20] = some [] := by
    apply probeList_all_absent
    intro k hk
    apply habsent
    simp only [List.mem_cons, List.not_mem_nil, or_false] at hk
    omega
  have hall : probeList s d.arn probeRange =
      some [mkVersionInfo s d.arn 1 p1 t1, mkVersionInfo s d.arn 2 p2 t2,
            mkVersionInfo s d.arn 3 p3 t3] := by
    rw [probeRange_eq, probeList_cons_some h1 ht1, probeList_cons_some h2 ht2,
      probeList_cons_some h3 ht3, htail]
    rfl
  refine ⟨draftInfo d td :: [mkVersionInfo s d.arn 1 p1 t1,
    mkVersionInfo s d.arn 2 p2 t2, mkVersionInfo s d.arn 3 p3 t3], ?_, rfl, rfl⟩
  rw [lvwt_eq hd htd, hall]
  rfl

/-- C5 witness: the concrete store with versions 1 to 3 enumerates to 4
records headed by the DRAFT record. -/
theorem C5_witness :
    ∃ l, list_versions_with_tags tagFailStore = some l ∧ l.length = 4 ∧
      l.head?.map VersionInfo.version = some "DRAFT" :=
  C5_three_versions_yield_four_records tagFailStore draftPrompt "hello world"
    shortPrompt shortPrompt shortPrompt "short" "short" "short"
    rfl rfl rfl rfl rfl rfl rfl rfl
    (by
      intro n hn
      show (if 1 ≤ n ∧ n ≤ 3 then some shortPrompt else none) = none
      rw [if_neg (by omega)])

/-- C6: a tag-lookup failure on a discovered numbered version is
swallowed: the enumeration still returns a list, and the failing version
appears in it with the empty tag set. -/
theorem C6_tag_lookup_failure_swallowed
    (s : PromptStore) (d : Prompt) (td : String) (n : Nat) (p : Prompt)
    (hd : s.draft = some d) (htd : d.firstText = some td)
    (hwf : ∀ k p2, s.version k = some p2 → p2.firstText.isSome)
    (hn1 : 1 ≤ n) (hn2 : n ≤ 20)
    (hp : s.version n = some p)
    (htagfail : s.tags n = none) :
    ∃ l, list_versions_with_tags s = some l ∧
      ∃ r ∈ l, r.version = toString n ∧ r.tags = [] := by
  obtain ⟨t, ht⟩ := Option.isSome_iff_exists.mp (hwf n p hp)
  obtain ⟨nl, hnl⟩ :=
    @probeList_isSome s d.arn probeRange (fun k _ p2 hp2 => hwf k p2 hp2)
  refine ⟨draftInfo d td :: nl, ?_, mkVersionInfo s d.arn n p t,
    List.mem_cons_of_mem _ (probeList_mem (mem_probeRange.mpr ⟨hn1, hn2⟩) hp ht hnl),
    rfl, ?_⟩
  · rw [lvwt_eq hd htd, hnl]
    rfl
  · show tagsFor s n = []
    simp only [tagsFor, htagfail]

/-- C6 witness: in the concrete store whose tag lookup raises for version
2, the enumeration succeeds and reports version 2 with no tags. -/
theorem C6_witness :
    ∃ l, list_versions_with_tags tagFailStore = some l ∧
      ∃ r ∈ l, r.version = toString 2 ∧ r.tags = [] :=
  C6_tag_lookup_failure_swallowed tagFailStore draftPrompt "hello world" 2 shortPrompt
    rfl rfl
    (by
      intro k p2 h2
      by_cases hk : 1 ≤ k ∧ k ≤ 3
      · have : (if 1 ≤ k ∧ k ≤ 3 then some shortPrompt else none) = some p2 := h2
        rw [if_pos hk] at this
        injection this with this
        subst this
        rfl
      · have : (if 1 ≤ k ∧ k ≤ 3 then some shortPrompt else none) = some p2 := h2
        rw [if_neg hk] at this
        exact Option.noConfusion this)
    (by decide) (by decide) rfl rfl

/-- C7: the reply consisting of the fenced block with the two-element
JSON list yields exactly the two enumerated groups, and every empty or
whitespace-only reply yields exactly the single General group holding the
placeholder text. -/
theorem C7_fenced_list_and_empty_reply :
    extract_grouped_texts "```json\n[[\"a\"],[\"b\"]]\n```" =
      Grouped.lst [("Group 1", Json.arr [Json.str "a"]),
                   ("Group 2", Json.arr [Json.str "b"])] ∧
    ∀ reply : String, pyStrip reply = "" →
      extract_grouped_texts reply =
        Grouped.lst [("General", Json.arr [Json.str "응답 없음"])] := by
  refine ⟨rfl, ?_⟩
  intro reply h
  rw [extract_grouped_texts, if_pos (Or.inr h)]

/-- C7 witness: a whitespace-only reply evaluated through the theorem. -/
theorem C7_witness :
    extract_grouped_texts "   " =
      Grouped.lst [("General", Json.arr [Json.str "응답 없음"])] :=
  C7_fenced_list_and_empty_reply.2 "   " rfl

/-- C8: whenever the extracted candidate of a non-blank reply fails to
decode as JSON, the extraction step recovers locally with exactly one
General group whose texts hold the raw reply; no decode failure escapes. -/
theorem C8_decode_failure_falls_back_to_raw_reply
    (reply : String)
    (hne : ¬(reply = "" ∨ pyStrip reply = ""))
    (hfail : json_loads (fence_candidate reply) = none) :
    extract_grouped_texts reply =
      Grouped.lst [("General", Json.arr [Json.str reply])] := by
  simp only [extract_grouped_texts]
  rw [if_neg hne, hfail]

/-- C8 witness: a plain non-JSON reply falls back to the single General
group holding the reply itself. -/
theorem C8_witness :
    extract_grouped_texts "hello" =
      Grouped.lst [("General", Json.arr [Json.str "hello"])] :=
  C8_decode_failure_falls_back_to_raw_reply "hello" (by decide) rfl

/-- C9 counterexample: a list holding one group whose texts join to the
empty string produces zero rows, not one row per group. -/
theorem C9_counterexample :
    ([GroupInput.dict none (some [""]) none none none none] : List GroupInput).length = 1 ∧
    format_translation_document [GroupInput.dict none (some [""]) none none none none] =
      [] :=
  ⟨rfl, rfl⟩

/-- C9 amended: the export emits one row per text group whose combined
text strips to a nonempty string, groups with blank text being excluded;
every emitted row carries a blank translated-text cell, a blank Notes
cell, Status Pending, and the stripped text of one of the groups as its
original text. -/
theorem C9_one_row_per_nonblank_group
    (gs : List GroupInput) :
    (format_translation_document gs).length =
      (gs.filter (fun g => pyStrip (group_text g) != "")).length ∧
    ∀ r ∈ format_translation_document gs,
      r.translated_text = "" ∧ r.notes = "" ∧ r.status = "Pending" ∧
      ∃ g ∈ gs, pyStrip (group_text g) ≠ "" ∧
        r.original_text = pyStrip (group_text g) :=
  formatRows_spec 1 gs

/-- C9 witness: the amended statement evaluated on a two-group list with
one blank group. -/
theorem C9_witness :
    (format_translation_document
        [GroupInput.str "hi", GroupInput.dict none (some [""]) none none none none]).length =
      (([GroupInput.str "hi", GroupInput.dict none (some [""]) none none none none] :
          List GroupInput).filter (fun g => pyStrip (group_text g) != "")).length :=
  (C9_one_row_per_nonblank_group
    [GroupInput.str "hi", GroupInput.dict none (some [""]) none none none none]).1

/-- C10: a reply holding the json fence marker with no closing fence after
it has everything from just past the marker to the end, stripped, as its
JSON candidate; when that candidate decodes to a JSON list of sublists,
the extraction step produces exactly as many groups as the list has
elements. -/
theorem C10_unclosed_fence_takes_tail
    (reply : String) (k : Nat) (gs : List Json)
    (hfind : findFrom reply.data ("```json".data) 0 = some k)
    (hnoclose : findFrom reply.data ("```".data) (k + 7) = none)
    (hne : ¬(reply = "" ∨ pyStrip reply = ""))
    (hsub : ∀ g ∈ gs, ∃ xs, g = Json.arr xs)
    (hparse : json_loads (pyStrip (String.mk (reply.data.drop (k + 7)))) =
      some (Json.arr gs)) :
    fence_candidate reply = pyStrip (String.mk (reply.data.drop (k + 7))) ∧
    ∃ l, extract_grouped_texts reply = Grouped.lst l ∧ l.length = gs.length := by
  have hcand : fence_candidate reply = pyStrip (String.mk (reply.data.drop (k + 7))) := by
    simp only [fence_candidate, hfind, hnoclose]
  refine ⟨hcand, enumGroupsAux 0 gs, ?_, enumGroupsAux_length 0 gs⟩
  simp only [extract_grouped_texts]
  rw [if_neg hne, hcand, hparse]

/-- C10 witness: a concrete reply with an unclosed json fence whose tail
decodes to a one-element list yields exactly one group. -/
theorem C10_witness :
    fence_candidate "```json\n[[\"a\"]]" =
      pyStrip (String.mk (("```json\n[[\"a\"]]" : String).data.drop (0 + 7))) ∧
    ∃ l, extract_grouped_texts "```json\n[[\"a\"]]" = Grouped.lst l ∧
      l.length = ([Json.arr [Json.str "a"]] : List Json).length :=
  C10_unclosed_fence_takes_tail "```json\n[[\"a\"]]" 0 [Json.arr [Json.str "a"]]
    rfl rfl (by decide)
    (fun g hg => ⟨[Json.str "a"], List.mem_singleton.mp hg⟩) rfl
